import Mathlib

/-!
Formal model of the customer-service insurance agent repository.

The NestJS API layer (DTO validators, premium service, insurance controller)
and the web frontend payload-shape detection are translated directly from the
TypeScript sources.  The Python orchestrator (intent router, slot collector,
confirmation gate, response composer, session store) is not present in the
repository sources; where a claim depends on it, the relevant behaviour is
modelled from the specification and marked as such in the doc comment.

Numbers carried by JSON payloads are modelled as rationals; Math.round is
modelled as round-half-up on rationals.
-/

/-- Character class of the claim-id regex in claims.dto.ts: an ASCII letter or digit. -/
def isClaimIdChar (c : Char) : Bool :=
  c.isAlphanum

/-- The claim-id pattern of GetClaimStatusDto (claims.dto.ts): one to ten
characters, all ASCII alphanumeric. -/
def claimIdMatches (s : String) : Bool :=
  decide (1 ≤ s.length) && decide (s.length ≤ 10) && s.toList.all isClaimIdChar

/-- Validation of GetClaimStatusDto (claims module, claims.dto.ts):
IsString, IsNotEmpty, and Matches the claim-id pattern. -/
def getClaimStatusDtoValid (claim_id : String) : Bool :=
  (!claim_id.isEmpty) && claimIdMatches claim_id

/-- Validation of ClaimStatusDto (insurance module, insurance.dto.ts):
IsString and IsNotEmpty only; no pattern constraint. -/
def insuranceClaimStatusDtoValid (claim_id : String) : Bool :=
  !claim_id.isEmpty

/-- Claim submission payload, shared field layout of SubmitClaimDto in
claims.dto.ts and insurance.dto.ts. -/
structure SubmitClaimDto where
  policy_id : String
  damage_description : String
  vehicle : String
  photos : Option (List String)
deriving DecidableEq

/-- Validation of SubmitClaimDto (claims module): IsNotEmpty policy_id,
MinLength 10 damage_description, IsNotEmpty vehicle; photos is an optional
list of strings, which the field type already guarantees. -/
def submitClaimDtoValid (d : SubmitClaimDto) : Bool :=
  (!d.policy_id.isEmpty) && decide (10 ≤ d.damage_description.length) && (!d.vehicle.isEmpty)

/-- Validation of SubmitClaimDto (insurance module): IsNotEmpty on policy_id,
damage_description and vehicle; no minimum length on damage_description. -/
def insuranceSubmitClaimDtoValid (d : SubmitClaimDto) : Bool :=
  (!d.policy_id.isEmpty) && (!d.damage_description.isEmpty) && (!d.vehicle.isEmpty)

/-- Premium calculation payload, shared field layout of CalculatePremiumDto in
premium.dto.ts and insurance.dto.ts. -/
structure CalculatePremiumDto where
  policy_id : String
  current_coverage : ℚ
  new_coverage : ℚ
deriving DecidableEq

/-- The IsGreaterThanCurrentConstraint of coverage.validator.ts: the new
coverage passes exactly when it exceeds the current coverage on the same
object. -/
def isGreaterThanCurrent (current_coverage new_coverage : ℚ) : Bool :=
  decide (current_coverage < new_coverage)

/-- Validation of CalculatePremiumDto (premium module, premium.dto.ts):
IsNotEmpty and Length 3 to 20 on policy_id, Min 1000 and Max 10000000 on both
coverages, and the IsGreaterThanCurrentConstraint on new_coverage. -/
def calculatePremiumDtoValid (d : CalculatePremiumDto) : Bool :=
  (!d.policy_id.isEmpty)
    && decide (3 ≤ d.policy_id.length) && decide (d.policy_id.length ≤ 20)
    && decide (1000 ≤ d.current_coverage) && decide (d.current_coverage ≤ 10000000)
    && decide (1000 ≤ d.new_coverage) && decide (d.new_coverage ≤ 10000000)
    && isGreaterThanCurrent d.current_coverage d.new_coverage

/-- Validation of CalculatePremiumDto (insurance module, insurance.dto.ts):
IsNotEmpty policy_id and Min 0 on both coverages; no upper bound and no
greater-than constraint at the DTO level. -/
def insuranceCalculatePremiumDtoValid (d : CalculatePremiumDto) : Bool :=
  (!d.policy_id.isEmpty)
    && decide ((0 : ℚ) ≤ d.current_coverage) && decide ((0 : ℚ) ≤ d.new_coverage)

/-- A record of the mockPremiums map in premium.service.ts. -/
structure PolicyPremiumRecord where
  current_coverage : ℚ
  current_premium : ℚ
deriving DecidableEq

/-- The mockPremiums map of PremiumService. -/
def mockPremiums : List (String × PolicyPremiumRecord) :=
  [("POLICY_001", ⟨50000, 500⟩),
   ("POLICY_002", ⟨30000, 400⟩),
   ("POLICY_003", ⟨100000, 800⟩)]

/-- Math.round of JavaScript on a rational: round half up. -/
def jsMathRound (x : ℚ) : ℤ :=
  Rat.floor (x + 1 / 2)

/-- The PremiumResponseDto returned by PremiumService.calculatePremium. -/
structure PremiumResponseDto where
  policy_id : String
  current_premium : ℚ
  new_premium : ℚ
deriving DecidableEq

/-- PremiumService.calculatePremium of premium.service.ts: reject when the new
coverage does not exceed the current coverage, reject unknown policies, and
otherwise scale the stored premium by the ratio of the requested new coverage
to the stored coverage, rounding as Math.round does. -/
def premiumServiceCalculatePremium (d : CalculatePremiumDto) :
    Except String PremiumResponseDto :=
  if d.new_coverage ≤ d.current_coverage then
    Except.error "New coverage must be greater than current coverage"
  else
    match mockPremiums.lookup d.policy_id with
    | none => Except.error ("Policy " ++ d.policy_id ++ " not found")
    | some p =>
        Except.ok
          { policy_id := d.policy_id
            current_premium := p.current_premium
            new_premium :=
              ((jsMathRound (p.current_premium * (d.new_coverage / p.current_coverage)) : ℤ) : ℚ) }

/-- The guard in InsuranceController.calculatePremium (insurance controller):
the request is rejected with a 400 error exactly when the new coverage does
not exceed the current coverage. -/
def insuranceControllerRejectsPremium (d : CalculatePremiumDto) : Bool :=
  decide (d.new_coverage ≤ d.current_coverage)

/-- A JSON-like payload value, as inspected by the frontend shape detectors in
chat page.tsx. -/
inductive JsValue where
  | str (s : String)
  | num (q : ℚ)
  | boolean (b : Bool)
  | null
  | arr (elems : List JsValue)
  | obj (fields : List (String × JsValue))

/-- Presence of a key among the fields of an object payload, as tested by
Object.keys(obj).includes in page.tsx. -/
def hasKey (fields : List (String × JsValue)) (k : String) : Bool :=
  fields.any (fun f => f.fst == k)

/-- The isPolicyPayload predicate of page.tsx: a non-null object whose keys
include collision_coverage, deductible or plan.  The key names never occur as
array indices, so the predicate is false on every non-object value. -/
def isPolicyPayload : JsValue → Bool
  | JsValue.obj fs =>
      hasKey fs "collision_coverage" || hasKey fs "deductible" || hasKey fs "plan"
  | _ => false

/-- The isClaimPayload predicate of page.tsx: a non-null object whose keys
include claim_id, or include both status and policy_id. -/
def isClaimPayload : JsValue → Bool
  | JsValue.obj fs =>
      hasKey fs "claim_id" || (hasKey fs "status" && hasKey fs "policy_id")
  | _ => false

/-- The isKnowledgeBasePayload predicate of page.tsx: a non-null object whose
keys include results or sources. -/
def isKnowledgeBasePayload : JsValue → Bool
  | JsValue.obj fs => hasKey fs "results" || hasKey fs "sources"
  | _ => false

/-- The UI card types assigned by the frontend. -/
inductive UiType where
  | policyDetails
  | claimStatus
  | knowledgeBase
  | premiumCalculation
deriving DecidableEq

/-- The shapeUiFromAny function of page.tsx, reduced to the tag it assigns:
null gives no tag; a non-empty array whose first element satisfies the claim
predicate is tagged claim_status; an object is tested against the policy,
claim and knowledge-base predicates in that order; everything else gives no
tag.  The data carried alongside the tag is always the input payload itself
and is omitted here. -/
def shapeUiFromAny : JsValue → Option UiType
  | JsValue.null => none
  | JsValue.arr [] => none
  | JsValue.arr (x :: _) =>
      if isClaimPayload x then some UiType.claimStatus else none
  | JsValue.obj fs =>
      if isPolicyPayload (JsValue.obj fs) then some UiType.policyDetails
      else if isClaimPayload (JsValue.obj fs) then some UiType.claimStatus
      else if isKnowledgeBasePayload (JsValue.obj fs) then some UiType.knowledgeBase
      else none
  | _ => none

/-- The detection order of autoDetectContent in the MessageBubble component of
page.tsx: the parsed content is tested against the policy, claim and
knowledge-base predicates in that order and rendered with the first matching
card component. -/
def autoDetectTag (v : JsValue) : Option UiType :=
  if isPolicyPayload v then some UiType.policyDetails
  else if isClaimPayload v then some UiType.claimStatus
  else if isKnowledgeBasePayload v then some UiType.knowledgeBase
  else none

/-- Modelled from the spec: one result of the Knowledge Store similarity
search, a content passage with a source identifier and a score.  The Python
orchestrator holding this code is not under the repository sources. -/
structure SearchResult where
  content : String
  source : String
  score : ℚ
deriving DecidableEq

/-- Modelled from the spec: a fully-resolved operation request, the argument
mapping the Slot Collector accumulates for one of the four backend
operations.  The Python orchestrator holding this code is not under the
repository sources. -/
inductive OpRequest where
  | claimStatus (claim_id : String)
  | submitClaim (dto : SubmitClaimDto)
  | calcPremium (dto : CalculatePremiumDto)
  | policyLookup (user_id : String)
deriving DecidableEq

/-- Modelled from the spec: the operation name attached to a request. -/
def opName : OpRequest → String
  | OpRequest.claimStatus _ => "claim_status"
  | OpRequest.submitClaim _ => "submit_claim"
  | OpRequest.calcPremium _ => "calculate_premium"
  | OpRequest.policyLookup _ => "policy_lookup"

/-- Modelled from the spec: the human-readable summary of the exact call about
to be made, emitted with a pending action. -/
def opSummary : OpRequest → String
  | OpRequest.claimStatus cid => "Check the status of claim " ++ cid
  | OpRequest.submitClaim d => "Submit a claim for policy " ++ d.policy_id
  | OpRequest.calcPremium d => "Calculate the premium for policy " ++ d.policy_id
  | OpRequest.policyLookup uid => "Look up the policy of user " ++ uid

/-- Modelled from the spec: Slot Collector validation of a resolved request.
Each operation validates with the constraints the specification lists, which
are the DTO validators of the claims and premium modules; policy lookup
requires a non-empty user id. -/
def opRequestValid : OpRequest → Bool
  | OpRequest.claimStatus cid => getClaimStatusDtoValid cid
  | OpRequest.submitClaim d => submitClaimDtoValid d
  | OpRequest.calcPremium d => calculatePremiumDtoValid d
  | OpRequest.policyLookup uid => !uid.isEmpty

/-- Modelled from the spec: read-only operations bypass the Confirmation Gate;
claim submission, premium calculation and claim status lookup are gated. -/
def requiresConfirmation : OpRequest → Bool
  | OpRequest.policyLookup _ => false
  | _ => true

/-- Modelled from the spec: a Pending Action, the ephemeral proposed
side-effecting call awaiting the next user reply. -/
structure PendingAction where
  operation : String
  summary : String
  payload : OpRequest
deriving DecidableEq

/-- Modelled from the spec: the states of the Confirmation Gate state
machine.  The executing state is transient within a turn and never stored. -/
inductive GateState where
  | idle
  | collecting (operation : String)
  | awaitingConfirmation (pa : PendingAction)
deriving DecidableEq

/-- Modelled from the spec: the per-session state held by the Session State
Store. -/
structure SessionState where
  pending_confirmation : Bool
  gate : GateState
deriving DecidableEq

/-- Modelled from the spec: the session state created on the first message of
a new session id. -/
def initialSession : SessionState :=
  { pending_confirmation := false, gate := GateState.idle }

/-- Modelled from the spec: one chat message of the Response Envelope. -/
structure ChatMsg where
  sender : String
  text : String
deriving DecidableEq

/-- Modelled from the spec: one entry of the actions list of the Response
Envelope. -/
structure EnvelopeAction where
  type : String
  id : String
  summary : String
  payload : OpRequest
deriving DecidableEq

/-- Modelled from the spec: the Response Envelope returned to the caller each
turn. -/
structure ResponseEnvelope where
  messages : List ChatMsg
  actions : List EnvelopeAction
  cards : List (String × JsValue)
  state_pending_confirmation : Bool

/-- Modelled from the spec: the result of handling one turn, the new session
state, the envelope, and the list of Backend Operations Provider calls issued
during the turn. -/
structure TurnResult where
  state : SessionState
  env : ResponseEnvelope
  calls : List OpRequest

/-- ASCII lowercasing of a string, character by character. -/
def lowerAscii (s : String) : String :=
  String.mk (s.data.map Char.toLower)

/-- Modelled from the spec: the reply interpreter of the Confirmation Gate,
which treats case-insensitive affirmatives as approval and anything else as
denial. -/
def isAffirmative (msg : String) : Bool :=
  let m := lowerAscii msg
  m == "yes" || m == "y" || m == "confirm"

/-- Modelled from the spec: the route the Intent Router assigns to a message
when no confirmation is pending, carrying the values the Slot Collector
extracted for an operation route. -/
inductive Route where
  | knowledge (query : String)
  | operation (req : OpRequest)
  | fallback
deriving DecidableEq

/-- Modelled from the spec: the card name under which the Response Composer
files each tagged payload. -/
def cardName : UiType → String
  | UiType.policyDetails => "policy_details"
  | UiType.claimStatus => "claim_status"
  | UiType.knowledgeBase => "knowledge_base"
  | UiType.premiumCalculation => "premium_calculation"

/-- Modelled from the spec: the Response Composer mapping rules over an
operation result payload, in the order the specification lists them. -/
def composerTag : JsValue → Option UiType
  | JsValue.obj fs =>
      if hasKey fs "plan" || hasKey fs "collision_coverage" || hasKey fs "deductible" then
        some UiType.policyDetails
      else if hasKey fs "claim_id" && hasKey fs "status" then some UiType.claimStatus
      else if hasKey fs "results" || hasKey fs "sources" then some UiType.knowledgeBase
      else if hasKey fs "current_premium" && hasKey fs "new_premium" then
        some UiType.premiumCalculation
      else none
  | _ => none

/-- Modelled from the spec: the cards mapping composed from an operation
result; unrecognized shapes pass through with no card. -/
def composeCards (result : JsValue) : List (String × JsValue) :=
  match composerTag result with
  | some t => [(cardName t, result)]
  | none => []

/-- Modelled from the spec: the knowledge-base card composed from search
results, with the passages under results and the identifiers under sources. -/
def knowledgeCard (results : List SearchResult) : JsValue :=
  JsValue.obj
    [("results", JsValue.arr (results.map (fun r => JsValue.str r.content))),
     ("sources", JsValue.arr (results.map (fun r => JsValue.str r.source)))]

/-- Modelled from the spec: the message text accompanying a knowledge-base
card, stating that no information was found when the search returns nothing. -/
def knowledgeMessage (results : List SearchResult) : String :=
  if results.isEmpty then "No relevant information found."
  else "Here is what I found in the knowledge base."

/-- Modelled from the spec: the turn outcome when the user denies a pending
confirmation; the pending action is discarded, no backend call is made. -/
def denyTurn : TurnResult :=
  { state := initialSession
    env :=
      { messages := [{ sender := "assistant", text := "Okay, I have cancelled that request." }]
        actions := []
        cards := []
        state_pending_confirmation := false }
    calls := [] }

/-- Modelled from the spec: the turn outcome when the user affirms a pending
confirmation; the gate invokes the Backend Operations Provider with the
resolved arguments and composes the result. -/
def approveTurn (pa : PendingAction) (backend : OpRequest → JsValue) : TurnResult :=
  { state := initialSession
    env :=
      { messages := [{ sender := "assistant", text := "Done: " ++ pa.summary }]
        actions := []
        cards := composeCards (backend pa.payload)
        state_pending_confirmation := false }
    calls := [pa.payload] }

/-- Modelled from the spec: the turn outcome of a read-only knowledge query,
which bypasses the Confirmation Gate. -/
def knowledgeTurn (gate : GateState) (q : String)
    (search : String → List SearchResult) : TurnResult :=
  let rs := search q
  { state := { pending_confirmation := false, gate := gate }
    env :=
      { messages := [{ sender := "assistant", text := knowledgeMessage rs }]
        actions := []
        cards := [("knowledge_base", knowledgeCard rs)]
        state_pending_confirmation := false }
    calls := [] }

/-- Modelled from the spec: the turn outcome when all slots of a gated
operation validate; a pending action is emitted and pending_confirmation is
set. -/
def confirmTurn (req : OpRequest) : TurnResult :=
  let pa : PendingAction := { operation := opName req, summary := opSummary req, payload := req }
  { state := { pending_confirmation := true, gate := GateState.awaitingConfirmation pa }
    env :=
      { messages := [{ sender := "assistant", text := pa.summary ++ ". Shall I proceed?" }]
        actions := [{ type := "confirm", id := "confirm-1", summary := pa.summary, payload := req }]
        cards := []
        state_pending_confirmation := true }
    calls := [] }

/-- Modelled from the spec: the turn outcome when a slot of a gated operation
fails validation; a corrective message is emitted and the collector loops. -/
def correctiveTurn (req : OpRequest) : TurnResult :=
  { state := { pending_confirmation := false, gate := GateState.collecting (opName req) }
    env :=
      { messages :=
          [{ sender := "assistant"
             text := "A value you gave for " ++ opName req ++ " is invalid, please retry." }]
        actions := []
        cards := []
        state_pending_confirmation := false }
    calls := [] }

/-- Modelled from the spec: the turn outcome of a read-only operation executed
immediately without a confirmation step. -/
def readOnlyTurn (gate : GateState) (req : OpRequest)
    (backend : OpRequest → JsValue) : TurnResult :=
  { state := { pending_confirmation := false, gate := gate }
    env :=
      { messages := [{ sender := "assistant", text := "Done: " ++ opSummary req }]
        actions := []
        cards := composeCards (backend req)
        state_pending_confirmation := false }
    calls := [req] }

/-- Modelled from the spec: the turn outcome of fallback conversation with no
tool use. -/
def fallbackTurn (gate : GateState) : TurnResult :=
  { state := { pending_confirmation := false, gate := gate }
    env :=
      { messages := [{ sender := "assistant", text := "How else can I help you?" }]
        actions := []
        cards := []
        state_pending_confirmation := false }
    calls := [] }

/-- Modelled from the spec: handling of one chat turn by the orchestration
core, which is not present under the repository sources.  If a confirmation is
pending, the message is interpreted as approve or deny without reclassifying;
otherwise the assigned route is dispatched, gating side-effecting operations
behind a pending action. -/
def handleTurn (s : SessionState) (msg : String) (route : Route)
    (search : String → List SearchResult) (backend : OpRequest → JsValue) : TurnResult :=
  match s.gate with
  | GateState.awaitingConfirmation pa =>
      if isAffirmative msg then approveTurn pa backend else denyTurn
  | g =>
      match route with
      | Route.knowledge q => knowledgeTurn g q search
      | Route.operation req =>
          if requiresConfirmation req then
            if opRequestValid req then confirmTurn req else correctiveTurn req
          else
            if opRequestValid req then readOnlyTurn g req backend else correctiveTurn req
      | Route.fallback => fallbackTurn g

/-! Helper lemmas shared by the claim theorems. -/

/-- A string matching the claim-id pattern is not empty. -/
theorem claimIdMatches_ne_empty {s : String} (h : claimIdMatches s = true) : s ≠ "" := by
  intro he
  rw [he] at h
  exact absurd h (by decide)

/-- Boolean emptiness test of a string, negated form. -/
theorem not_isEmpty_iff_ne_empty (s : String) : (!s.isEmpty) = true ↔ s ≠ "" := by
  constructor
  · intro h he
    rw [he] at h
    exact absurd h (by decide)
  · intro h
    cases hb : s.isEmpty with
    | false => rfl
    | true => exact absurd ((String.isEmpty_iff s).mp hb) h

/-- Boolean emptiness test of a string, equational form. -/
theorem isEmpty_false_iff_ne (s : String) : s.isEmpty = false ↔ s ≠ "" := by
  rw [← not_isEmpty_iff_ne_empty s, Bool.not_eq_true']

/-- The executable rational floor agrees with the floor of the FloorRing
instance on the rationals. -/
theorem ratFloorEqIntFloor (q : ℚ) : Rat.floor q = ⌊q⌋ := rfl

/-- Claim C1: for every session and turn of the modelled orchestration core,
pending_confirmation is true in the resulting session state exactly when the
Response Envelope of the turn carries a non-empty actions list all of whose
entries have type confirm; the envelope never carries more than one action,
and the state snapshot inside the envelope agrees with the session state. -/
theorem handleTurn_pending_confirmation_iff_confirm_actions
    (s : SessionState) (msg : String) (route : Route)
    (search : String → List SearchResult) (backend : OpRequest → JsValue) :
    let r := handleTurn s msg route search backend
    (r.state.pending_confirmation = true ↔
      (r.env.actions ≠ [] ∧ ∀ a ∈ r.env.actions, a.type = "confirm"))
    ∧ r.env.actions.length ≤ 1
    ∧ r.env.state_pending_confirmation = r.state.pending_confirmation := by
  intro r
  rcases s with ⟨pc, gate⟩
  cases gate with
  | awaitingConfirmation pa =>
      by_cases h : isAffirmative msg = true
      · simp [r, handleTurn, h, approveTurn, initialSession]
      · rw [Bool.not_eq_true] at h
        simp [r, handleTurn, h, denyTurn, initialSession]
  | idle =>
      cases route with
      | knowledge q => simp [r, handleTurn, knowledgeTurn]
      | operation req =>
          by_cases hrc : requiresConfirmation req = true
          · by_cases hv : opRequestValid req = true
            · simp [r, handleTurn, hrc, hv, confirmTurn]
            · rw [Bool.not_eq_true] at hv
              simp [r, handleTurn, hrc, hv, correctiveTurn]
          · rw [Bool.not_eq_true] at hrc
            by_cases hv : opRequestValid req = true
            · simp [r, handleTurn, hrc, hv, readOnlyTurn]
            · rw [Bool.not_eq_true] at hv
              simp [r, handleTurn, hrc, hv, correctiveTurn]
      | fallback => simp [r, handleTurn, fallbackTurn]
  | collecting opn =>
      cases route with
      | knowledge q => simp [r, handleTurn, knowledgeTurn]
      | operation req =>
          by_cases hrc : requiresConfirmation req = true
          · by_cases hv : opRequestValid req = true
            · simp [r, handleTurn, hrc, hv, confirmTurn]
            · rw [Bool.not_eq_true] at hv
              simp [r, handleTurn, hrc, hv, correctiveTurn]
          · rw [Bool.not_eq_true] at hrc
            by_cases hv : opRequestValid req = true
            · simp [r, handleTurn, hrc, hv, readOnlyTurn]
            · rw [Bool.not_eq_true] at hv
              simp [r, handleTurn, hrc, hv, correctiveTurn]
      | fallback => simp [r, handleTurn, fallbackTurn]

/-- Witness for claim C1 at a concrete turn. -/
theorem handleTurn_pending_confirmation_iff_confirm_actions_witness :
    let r := handleTurn initialSession "hello" Route.fallback (fun _ => []) (fun _ => JsValue.null)
    (r.state.pending_confirmation = true ↔
      (r.env.actions ≠ [] ∧ ∀ a ∈ r.env.actions, a.type = "confirm"))
    ∧ r.env.actions.length ≤ 1
    ∧ r.env.state_pending_confirmation = r.state.pending_confirmation :=
  handleTurn_pending_confirmation_iff_confirm_actions initialSession "hello" Route.fallback
    (fun _ => []) (fun _ => JsValue.null)

/-- Claim C2: in the modelled orchestration core, replying no while a
confirmation is pending returns the session to idle, clears the
pending_confirmation flag, discards the pending action, and issues no call to
the Backend Operations Provider, whatever the pending action payload and the
route the router would otherwise have assigned. -/
theorem handleTurn_deny_resets_to_idle_without_backend_call
    (pa : PendingAction) (route : Route) (search : String → List SearchResult)
    (backend : OpRequest → JsValue) :
    let r := handleTurn ⟨true, GateState.awaitingConfirmation pa⟩ "no" route search backend
    r.state.gate = GateState.idle
    ∧ r.state.pending_confirmation = false
    ∧ r.calls = []
    ∧ r.env.actions = [] := by
  intro r
  have hturn : r = denyTurn := by
    show handleTurn ⟨true, GateState.awaitingConfirmation pa⟩ "no" route search backend = denyTurn
    unfold handleTurn
    have h : isAffirmative "no" = false := by decide
    simp [h]
  rw [hturn]
  exact ⟨rfl, rfl, rfl, rfl⟩

/-- Witness for claim C2 at a concrete pending claim-status action. -/
theorem handleTurn_deny_resets_witness :
    let r := handleTurn
      ⟨true, GateState.awaitingConfirmation
        ⟨"claim_status", "Check the status of claim 98765", OpRequest.claimStatus "98765"⟩⟩
      "no" Route.fallback (fun _ => []) (fun _ => JsValue.null)
    r.state.gate = GateState.idle
    ∧ r.state.pending_confirmation = false
    ∧ r.calls = []
    ∧ r.env.actions = [] :=
  handleTurn_deny_resets_to_idle_without_backend_call
    ⟨"claim_status", "Check the status of claim 98765", OpRequest.claimStatus "98765"⟩
    Route.fallback (fun _ => []) (fun _ => JsValue.null)

/-- Claim C3: PremiumService.calculatePremium returns a result carrying the
policy id, the stored current premium and the scaled new premium whenever the
policy is known and the new coverage strictly exceeds the requested current
coverage, and fails with the business-rule error message, producing no premium
result, whenever the new coverage does not exceed the current coverage; the
insurance controller rejects the same out-of-order requests with its own
guard. -/
theorem premium_calculation_requires_strictly_greater_coverage (d : CalculatePremiumDto) :
    (∀ p, mockPremiums.lookup d.policy_id = some p →
      d.current_coverage < d.new_coverage →
      premiumServiceCalculatePremium d =
        Except.ok
          { policy_id := d.policy_id
            current_premium := p.current_premium
            new_premium :=
              ((jsMathRound (p.current_premium * (d.new_coverage / p.current_coverage)) : ℤ) : ℚ) })
    ∧ (d.new_coverage ≤ d.current_coverage →
      premiumServiceCalculatePremium d =
        Except.error "New coverage must be greater than current coverage"
      ∧ insuranceControllerRejectsPremium d = true) := by
  constructor
  · intro p hp hlt
    unfold premiumServiceCalculatePremium
    rw [if_neg (not_le.mpr hlt), hp]
  · intro hle
    constructor
    · unfold premiumServiceCalculatePremium
      rw [if_pos hle]
    · unfold insuranceControllerRejectsPremium
      exact decide_eq_true hle

/-- Witness for claim C3: a known policy with increased coverage yields the
rounded premium, and a decreased coverage yields the business-rule error. -/
theorem premium_calculation_requires_strictly_greater_coverage_witness :
    premiumServiceCalculatePremium ⟨"POLICY_001", 50000, 80000⟩ =
      Except.ok ⟨"POLICY_001", 500, 800⟩
    ∧ premiumServiceCalculatePremium ⟨"POLICY_001", 50000, 30000⟩ =
      Except.error "New coverage must be greater than current coverage" := by
  constructor
  · have h := (premium_calculation_requires_strictly_greater_coverage
      ⟨"POLICY_001", 50000, 80000⟩).1 ⟨50000, 500⟩ rfl (by norm_num)
    rw [h]
    unfold jsMathRound
    norm_num
    rw [ratFloorEqIntFloor]
    have hf : ⌊(1601 : ℚ) / 2⌋ = 800 := by
      rw [Int.floor_eq_iff]
      constructor
      · norm_num
      · norm_num
    rw [hf]
    norm_num
  · exact ((premium_calculation_requires_strictly_greater_coverage
      ⟨"POLICY_001", 50000, 30000⟩).2 (by norm_num)).1

/-- Counterexample for claim C4: the insurance-module claim-status DTO accepts
an input that does not match the claim-id pattern, so the claim-status lookup
of that module does not reject exactly the non-matching ids. -/
theorem insurance_claim_id_accepts_nonmatching_input :
    insuranceClaimStatusDtoValid "ABC@123" = true ∧ claimIdMatches "ABC@123" = false := by
  decide

/-- Claim C4 as amended: the claims-module claim-status DTO accepts exactly
the ids matching the alphanumeric one-to-ten-character pattern, while the
insurance-module claim-status DTO accepts every non-empty string, pattern or
not. -/
theorem claim_id_validation_by_module (s : String) :
    (getClaimStatusDtoValid s = true ↔ claimIdMatches s = true)
    ∧ (insuranceClaimStatusDtoValid s = true ↔ s ≠ "") := by
  constructor
  · unfold getClaimStatusDtoValid
    constructor
    · intro h
      exact (Bool.and_eq_true _ _ |>.mp h).2
    · intro h
      rw [Bool.and_eq_true, not_isEmpty_iff_ne_empty]
      exact ⟨claimIdMatches_ne_empty h, h⟩
  · unfold insuranceClaimStatusDtoValid
    exact not_isEmpty_iff_ne_empty s

/-- Witness for the amended claim C4 at a concrete claim id. -/
theorem claim_id_validation_by_module_witness :
    (getClaimStatusDtoValid "98765" = true ↔ claimIdMatches "98765" = true)
    ∧ (insuranceClaimStatusDtoValid "98765" = true ↔ "98765" ≠ "") :=
  claim_id_validation_by_module "98765"

/-- Counterexample for claim C5: the insurance-module premium DTO accepts a
request whose current coverage is below the 1000 lower bound, and the
insurance controller guard does not reject it either. -/
theorem insurance_premium_dto_accepts_out_of_bounds_coverage :
    insuranceCalculatePremiumDtoValid ⟨"POLICY_001", 500, 600⟩ = true
    ∧ insuranceControllerRejectsPremium ⟨"POLICY_001", 500, 600⟩ = false
    ∧ ¬ ((1000 : ℚ) ≤ 500) := by
  refine ⟨by decide, by decide, by norm_num⟩

/-- Claim C5 as amended: the premium-module DTO enforces a non-empty policy id
of length three to twenty, both coverages between 1000 and 10000000, and a new
coverage strictly above the current one; the insurance-module DTO requires
only a non-empty policy id and non-negative coverages. -/
theorem premium_dto_validation_by_module (d : CalculatePremiumDto) :
    (calculatePremiumDtoValid d = true ↔
      (d.policy_id ≠ "" ∧ 3 ≤ d.policy_id.length ∧ d.policy_id.length ≤ 20
        ∧ 1000 ≤ d.current_coverage ∧ d.current_coverage ≤ 10000000
        ∧ 1000 ≤ d.new_coverage ∧ d.new_coverage ≤ 10000000
        ∧ d.current_coverage < d.new_coverage))
    ∧ (insuranceCalculatePremiumDtoValid d = true ↔
      (d.policy_id ≠ "" ∧ 0 ≤ d.current_coverage ∧ 0 ≤ d.new_coverage)) := by
  unfold calculatePremiumDtoValid insuranceCalculatePremiumDtoValid isGreaterThanCurrent
  constructor
  · simp [Bool.and_eq_true, decide_eq_true_eq, isEmpty_false_iff_ne, and_assoc]
  · simp [Bool.and_eq_true, decide_eq_true_eq, isEmpty_false_iff_ne, and_assoc]

/-- Witness for the amended claim C5 at a concrete in-bounds request. -/
theorem premium_dto_validation_by_module_witness :
    (calculatePremiumDtoValid ⟨"POLICY_001", 50000, 80000⟩ = true ↔
      (("POLICY_001" : String) ≠ "" ∧ 3 ≤ ("POLICY_001" : String).length
        ∧ ("POLICY_001" : String).length ≤ 20
        ∧ (1000 : ℚ) ≤ 50000 ∧ (50000 : ℚ) ≤ 10000000
        ∧ (1000 : ℚ) ≤ 80000 ∧ (80000 : ℚ) ≤ 10000000
        ∧ (50000 : ℚ) < 80000))
    ∧ (insuranceCalculatePremiumDtoValid ⟨"POLICY_001", 50000, 80000⟩ = true ↔
      (("POLICY_001" : String) ≠ "" ∧ (0 : ℚ) ≤ 50000 ∧ (0 : ℚ) ≤ 80000)) :=
  premium_dto_validation_by_module ⟨"POLICY_001", 50000, 80000⟩

/-- Counterexample for claim C6: the insurance-module submit-claim DTO accepts
a submission whose damage description is shorter than ten characters. -/
theorem insurance_submit_claim_accepts_short_description :
    insuranceSubmitClaimDtoValid ⟨"POL123", "short", "Toyota Camry 2020", none⟩ = true
    ∧ "short".length < 10 := by
  refine ⟨by decide, by decide⟩

/-- Claim C6 as amended: the claims-module submit-claim DTO enforces a
non-empty policy id, a damage description of at least ten characters and a
non-empty vehicle, with photos an optional list of strings; the
insurance-module DTO requires only that the three string fields be
non-empty. -/
theorem submit_claim_validation_by_module (d : SubmitClaimDto) :
    (submitClaimDtoValid d = true ↔
      (d.policy_id ≠ "" ∧ 10 ≤ d.damage_description.length ∧ d.vehicle ≠ ""))
    ∧ (insuranceSubmitClaimDtoValid d = true ↔
      (d.policy_id ≠ "" ∧ d.damage_description ≠ "" ∧ d.vehicle ≠ "")) := by
  unfold submitClaimDtoValid insuranceSubmitClaimDtoValid
  constructor
  · simp [Bool.and_eq_true, decide_eq_true_eq, isEmpty_false_iff_ne, and_assoc]
  · simp [Bool.and_eq_true, decide_eq_true_eq, isEmpty_false_iff_ne, and_assoc]

/-- Witness for the amended claim C6 at a concrete valid submission. -/
theorem submit_claim_validation_by_module_witness :
    (submitClaimDtoValid ⟨"POL123", "Vehicle damage from collision", "Toyota Camry 2020", none⟩ = true ↔
      (("POL123" : String) ≠ ""
        ∧ 10 ≤ ("Vehicle damage from collision" : String).length
        ∧ ("Toyota Camry 2020" : String) ≠ ""))
    ∧ (insuranceSubmitClaimDtoValid
        ⟨"POL123", "Vehicle damage from collision", "Toyota Camry 2020", none⟩ = true ↔
      (("POL123" : String) ≠ "" ∧ ("Vehicle damage from collision" : String) ≠ ""
        ∧ ("Toyota Camry 2020" : String) ≠ "")) :=
  submit_claim_validation_by_module
    ⟨"POL123", "Vehicle damage from collision", "Toyota Camry 2020", none⟩

/-- Counterexample for claim C7: an object carrying a claim_id key but no
status key is still tagged as a claim-status card by the frontend shape
detection, so the tagging is not characterised by the presence of both
claim_id and status. -/
theorem claim_card_tag_without_status_field :
    shapeUiFromAny (JsValue.obj [("claim_id", JsValue.str "98765")]) = some UiType.claimStatus
    ∧ hasKey [("claim_id", JsValue.str "98765")] "status" = false := by
  refine ⟨by decide, by decide⟩

/-- Claim C7 as amended: the frontend claim predicate holds of an object
exactly when it has a claim_id key, or both a status and a policy_id key; a
non-empty list is tagged claim_status exactly when its first element satisfies
that predicate; and an object is tagged claim_status exactly when it satisfies
the claim predicate and not the policy predicate, which is checked first. -/
theorem claim_card_tagging_rule (fs : List (String × JsValue)) (x : JsValue) (xs : List JsValue) :
    (isClaimPayload (JsValue.obj fs)
      = (hasKey fs "claim_id" || (hasKey fs "status" && hasKey fs "policy_id")))
    ∧ (shapeUiFromAny (JsValue.arr (x :: xs))
      = if isClaimPayload x then some UiType.claimStatus else none)
    ∧ (shapeUiFromAny (JsValue.obj fs) = some UiType.claimStatus ↔
      (isPolicyPayload (JsValue.obj fs) = false ∧ isClaimPayload (JsValue.obj fs) = true)) := by
  refine ⟨rfl, rfl, ?_⟩
  unfold shapeUiFromAny
  by_cases hp : isPolicyPayload (JsValue.obj fs) = true
  · simp [hp]
  · rw [Bool.not_eq_true] at hp
    by_cases hc : isClaimPayload (JsValue.obj fs) = true
    · simp [hp, hc]
    · rw [Bool.not_eq_true] at hc
      by_cases hk : isKnowledgeBasePayload (JsValue.obj fs) = true
      · simp [hp, hc, hk]
      · rw [Bool.not_eq_true] at hk
        simp [hp, hc, hk]

/-- Witness for the amended claim C7 at a concrete claim payload. -/
theorem claim_card_tagging_rule_witness :
    (isClaimPayload (JsValue.obj [("claim_id", JsValue.str "1")])
      = (hasKey [("claim_id", JsValue.str "1")] "claim_id"
          || (hasKey [("claim_id", JsValue.str "1")] "status"
              && hasKey [("claim_id", JsValue.str "1")] "policy_id")))
    ∧ (shapeUiFromAny (JsValue.arr ([JsValue.obj [("claim_id", JsValue.str "1")]]))
      = if isClaimPayload (JsValue.obj [("claim_id", JsValue.str "1")]) then
          some UiType.claimStatus
        else none)
    ∧ (shapeUiFromAny (JsValue.obj [("claim_id", JsValue.str "1")]) = some UiType.claimStatus ↔
      (isPolicyPayload (JsValue.obj [("claim_id", JsValue.str "1")]) = false
        ∧ isClaimPayload (JsValue.obj [("claim_id", JsValue.str "1")]) = true)) :=
  claim_card_tagging_rule [("claim_id", JsValue.str "1")]
    (JsValue.obj [("claim_id", JsValue.str "1")]) []

/-- Claim C8: in the modelled orchestration core, a knowledge query matching
no documents returns an envelope whose knowledge_base card has an empty
results list, whose message text states that no information was found, and
which issues no backend call. -/
theorem knowledge_query_no_match_returns_empty_results
    (pc : Bool) (q : String) (search : String → List SearchResult)
    (backend : OpRequest → JsValue) (hempty : search q = []) :
    let r := handleTurn ⟨pc, GateState.idle⟩ q (Route.knowledge q) search backend
    r.env.cards =
      [("knowledge_base", JsValue.obj [("results", JsValue.arr []), ("sources", JsValue.arr [])])]
    ∧ (∃ m ∈ r.env.messages, m.text = "No relevant information found.")
    ∧ r.calls = [] := by
  intro r
  have hturn : r = knowledgeTurn GateState.idle q search := by rfl
  rw [hturn]
  unfold knowledgeTurn
  simp [hempty, knowledgeCard, knowledgeMessage]

/-- Witness for claim C8 with a search function returning no documents. -/
theorem knowledge_query_no_match_witness :
    let r := handleTurn ⟨false, GateState.idle⟩ "what is quantum insurance"
      (Route.knowledge "what is quantum insurance") (fun _ => []) (fun _ => JsValue.null)
    r.env.cards =
      [("knowledge_base", JsValue.obj [("results", JsValue.arr []), ("sources", JsValue.arr [])])]
    ∧ (∃ m ∈ r.env.messages, m.text = "No relevant information found.")
    ∧ r.calls = [] :=
  knowledge_query_no_match_returns_empty_results false "what is quantum insurance"
    (fun _ => []) (fun _ => JsValue.null) rfl

/-- Claim C9: every accepted premium calculation returns the stored premium
scaled by the ratio of the requested new coverage to the stored coverage,
rounded as Math.round does, and in particular two accepted requests that agree
on policy id and new coverage but differ in the requested current coverage
produce identical results. -/
theorem premium_formula_ignores_requested_current_coverage :
    (∀ (d : CalculatePremiumDto) (p : PolicyPremiumRecord),
      mockPremiums.lookup d.policy_id = some p →
      d.current_coverage < d.new_coverage →
      premiumServiceCalculatePremium d =
        Except.ok
          { policy_id := d.policy_id
            current_premium := p.current_premium
            new_premium :=
              ((jsMathRound (p.current_premium * d.new_coverage / p.current_coverage) : ℤ) : ℚ) })
    ∧ (∀ d1 d2 : CalculatePremiumDto,
      d1.policy_id = d2.policy_id →
      d1.new_coverage = d2.new_coverage →
      d1.current_coverage < d1.new_coverage →
      d2.current_coverage < d2.new_coverage →
      (mockPremiums.lookup d1.policy_id).isSome →
      premiumServiceCalculatePremium d1 = premiumServiceCalculatePremium d2) := by
  constructor
  · intro d p hp hlt
    unfold premiumServiceCalculatePremium
    rw [if_neg (not_le.mpr hlt), hp, mul_div_assoc]
  · intro d1 d2 hpid hnc h1 h2 hsome
    obtain ⟨p, hp⟩ := Option.isSome_iff_exists.mp hsome
    unfold premiumServiceCalculatePremium
    rw [if_neg (not_le.mpr h1), if_neg (not_le.mpr h2), hpid, hnc]

/-- Witness for claim C9: two accepted requests for the same policy and new
coverage but different current coverages produce the same response. -/
theorem premium_formula_ignores_requested_current_coverage_witness :
    premiumServiceCalculatePremium ⟨"POLICY_001", 50000, 80000⟩ =
      premiumServiceCalculatePremium ⟨"POLICY_001", 60000, 80000⟩ :=
  premium_formula_ignores_requested_current_coverage.2
    ⟨"POLICY_001", 50000, 80000⟩ ⟨"POLICY_001", 60000, 80000⟩ rfl rfl
    (by norm_num) (by norm_num) rfl

/-- Claim C10: an object payload satisfying both the policy predicate and the
claim predicate is tagged policy_details, never claim_status, by both frontend
detection paths, because the policy predicate is checked first. -/
theorem policy_card_priority_over_claim_card (fs : List (String × JsValue))
    (hp : isPolicyPayload (JsValue.obj fs) = true)
    (_hc : isClaimPayload (JsValue.obj fs) = true) :
    shapeUiFromAny (JsValue.obj fs) = some UiType.policyDetails
    ∧ autoDetectTag (JsValue.obj fs) = some UiType.policyDetails
    ∧ shapeUiFromAny (JsValue.obj fs) ≠ some UiType.claimStatus
    ∧ autoDetectTag (JsValue.obj fs) ≠ some UiType.claimStatus := by
  unfold shapeUiFromAny autoDetectTag
  simp [hp]

/-- Witness for claim C10 at a payload with both a plan and a claim_id key. -/
theorem policy_card_priority_over_claim_card_witness :
    shapeUiFromAny (JsValue.obj [("plan", JsValue.str "Gold"), ("claim_id", JsValue.str "1")])
      = some UiType.policyDetails
    ∧ autoDetectTag (JsValue.obj [("plan", JsValue.str "Gold"), ("claim_id", JsValue.str "1")])
      = some UiType.policyDetails
    ∧ shapeUiFromAny (JsValue.obj [("plan", JsValue.str "Gold"), ("claim_id", JsValue.str "1")])
      ≠ some UiType.claimStatus
    ∧ autoDetectTag (JsValue.obj [("plan", JsValue.str "Gold"), ("claim_id", JsValue.str "1")])
      ≠ some UiType.claimStatus :=
  policy_card_priority_over_claim_card
    [("plan", JsValue.str "Gold"), ("claim_id", JsValue.str "1")] (by decide) (by decide)
